import Mathlib

set_option linter.unnecessarySeqFocus false

/-!
Verification of `src/travel_explore.py`: a three-stage pipeline
(Fetcher → Ranker → Presenter) that queries a travel-search API, sorts
destinations by cheapest flight price, and prints a ranked listing.

The Python source is shallowly embedded: dictionaries become structures
with `Option` fields (an absent dictionary key is `none`), the Python
stable `sorted` becomes the Mathlib stable `List.insertionSort`, and the
single HTTP call is factored through an explicit `HttpRequest` value so
that "no network call was made" is expressible.
-/

namespace TravelExplore

/-- The nested `flight` dictionary of a destination record.  Every field
may be absent, mirroring `flight.get(...)` accesses in the source. -/
structure Flight where
  price : Option Int
  airline_name : Option String
  stops : Option Int
  flight_duration : Option String
  airport_code : Option String
deriving Repr, DecidableEq

/-- One destination record from the API response
(`dest.get(...)` accesses in the source). -/
structure Destination where
  name : Option String
  country : Option String
  flight : Option Flight
  outbound_date : Option String
  return_date : Option String
  avg_cost_per_night : Option Int
deriving Repr, DecidableEq

/-- `get_price` inside `sort_by_cheapest`: `dest.get("flight", {})`
followed by `flight.get("price")`; an absent flight dictionary yields an
absent price. The `float("inf")` default is modelled by keeping the key
as `Option Int` and letting `none` compare above every `some`. -/
def get_price (dest : Destination) : Option Int :=
  match dest.flight with
  | some f => f.price
  | none => none

/-- Comparison of sort keys: `none` plays the role of `float("inf")`,
so it is `≤` only to `none` and every `some` is `≤` to it. -/
def keyLeB : Option Int → Option Int → Bool
  | _, none => true
  | none, some _ => false
  | some x, some y => decide (x ≤ y)

/-- The ordering used by the Ranker: compare destinations by
`get_price`, missing price last. -/
def destLe (a b : Destination) : Prop :=
  keyLeB (get_price a) (get_price b) = true

instance : DecidableRel destLe := fun a b => by
  unfold destLe; infer_instance

instance : IsTotal Destination destLe := by
  constructor
  intro a b
  unfold destLe keyLeB
  rcases get_price a with _ | x <;> rcases get_price b with _ | y <;> simp
  omega

instance : IsTrans Destination destLe := by
  constructor
  intro a b c
  unfold destLe keyLeB
  rcases get_price a with _ | x <;> rcases get_price b with _ | y <;>
    rcases get_price c with _ | z <;> simp <;> omega

/-- `sort_by_cheapest`: the Python call `sorted(destinations, key=get_price)`
is a stable sort by the price key; `List.insertionSort` is the stable
sort with the same extensional behaviour. -/
def sort_by_cheapest (destinations : List Destination) : List Destination :=
  List.insertionSort destLe destinations

/-- Reflexivity of the key comparison on equal keys (used for
stability: an element never jumps over an equal key). -/
theorem keyLeB_refl (a : Option Int) : keyLeB a a = true := by
  unfold keyLeB; rcases a with _ | x <;> simp

theorem keyLeB_false_ne {a b : Option Int} (h : keyLeB a b = false) : b ≠ a := by
  intro he
  rw [he, keyLeB_refl] at h
  exact Bool.noConfusion h

/-- Filtering by an exact key value commutes with `orderedInsert`:
the inserted element lands in front of the equal-key suffix, and all
elements it skips have strictly smaller keys. -/
theorem filter_orderedInsert (k : Option Int) (x : Destination) :
    ∀ s : List Destination,
      (List.orderedInsert destLe x s).filter (fun d => get_price d == k) =
        if get_price x == k then
          x :: s.filter (fun d => get_price d == k)
        else s.filter (fun d => get_price d == k)
  | [] => by
    by_cases hk : get_price x = k
    · simp [List.orderedInsert, List.filter_cons, hk]
    · simp [List.orderedInsert, List.filter_cons, hk]
  | y :: ys => by
    by_cases hxy : destLe x y
    · have hstep : List.orderedInsert destLe x (y :: ys) = x :: y :: ys := by
        simp only [List.orderedInsert, if_pos hxy]
      rw [hstep]
      by_cases hk : get_price x = k
      · simp [List.filter_cons, hk]
      · simp [List.filter_cons, hk]
    · have hstep : List.orderedInsert destLe x (y :: ys) =
          y :: List.orderedInsert destLe x ys := by
        simp only [List.orderedInsert, if_neg hxy]
      have hyx : get_price y ≠ get_price x := by
        have hfalse : keyLeB (get_price x) (get_price y) = false := by
          unfold destLe at hxy
          exact Bool.eq_false_iff.mpr hxy
        exact keyLeB_false_ne hfalse
      rw [hstep]
      by_cases hk : get_price x = k
      · have hyk : ¬ get_price y = k := by rw [← hk]; exact hyx
        rw [List.filter_cons, List.filter_cons, filter_orderedInsert k x ys]
        simp [hk, hyk]
      · rw [List.filter_cons, List.filter_cons, filter_orderedInsert k x ys]
        simp [hk]

/-- Stability of the Ranker, phrased as: for every key value, the
subsequence of records carrying exactly that key is unchanged by the
sort (in particular equal-key records keep their relative order). -/
theorem filter_sort_by_cheapest (k : Option Int) :
    ∀ l : List Destination,
      (sort_by_cheapest l).filter (fun d => get_price d == k) =
        l.filter (fun d => get_price d == k)
  | [] => rfl
  | x :: xs => by
    have IH := filter_sort_by_cheapest k xs
    unfold sort_by_cheapest at IH ⊢
    show (List.orderedInsert destLe x (List.insertionSort destLe xs)).filter _ = _
    rw [filter_orderedInsert k x]
    by_cases hk : get_price x = k
    · simp [List.filter_cons, hk, IH]
    · simp [List.filter_cons, hk, IH]

/-- Record "A" of the spec scenario: price 500. -/
def destA : Destination :=
  ⟨some "A", none, some ⟨some 500, none, none, none, none⟩, none, none, none⟩

/-- Record "B" of the spec scenario: price 200. -/
def destB : Destination :=
  ⟨some "B", none, some ⟨some 200, none, none, none, none⟩, none, none, none⟩

/-- Record "C" of the spec scenario: price null. -/
def destC : Destination :=
  ⟨some "C", none, some ⟨none, none, none, none, none⟩, none, none, none⟩

/-- C1: `sort_by_cheapest` orders every list of destination records by
ascending flight price with a missing price treated as `+∞` (so priced
records never follow missing-price ones), the sort is stable (for each
key value the equal-key subsequence is preserved), and the spec
scenario `[A(500), B(200), C(null)]` ranks as `[B, A, C]`. -/
theorem sort_by_cheapest_ordered_stable :
    (∀ l : List Destination, List.Pairwise destLe (sort_by_cheapest l)) ∧
    (∀ l : List Destination, List.Pairwise
      (fun a b => get_price a = none → get_price b = none) (sort_by_cheapest l)) ∧
    (∀ (k : Option Int) (l : List Destination),
      (sort_by_cheapest l).filter (fun d => get_price d == k) =
        l.filter (fun d => get_price d == k)) ∧
    sort_by_cheapest [destA, destB, destC] = [destB, destA, destC] := by
  refine ⟨?_, ?_, filter_sort_by_cheapest, by decide⟩
  · intro l
    exact List.sorted_insertionSort destLe l
  · intro l
    have h := List.sorted_insertionSort destLe l
    refine h.imp ?_
    intro a b hab ha
    unfold destLe keyLeB at hab
    rw [ha] at hab
    rcases hb : get_price b with _ | y
    · rfl
    · rw [hb] at hab; simp at hab

/-- C6: the Ranker output is a permutation of its input — same
length, no record dropped, none duplicated. -/
theorem sort_by_cheapest_perm :
    ∀ l : List Destination,
      (sort_by_cheapest l).Perm l ∧ (sort_by_cheapest l).length = l.length := by
  intro l
  exact ⟨List.perm_insertionSort destLe l, (List.perm_insertionSort destLe l).length_eq⟩

/-! ### Presenter: percent-encoding and the booking link -/

/-- UTF-8 encoding of one character, as the list of its byte values. -/
def utf8Bytes (c : Char) : List Nat :=
  let n := c.toNat
  if n < 128 then [n]
  else if n < 2048 then [192 + n / 64, 128 + n % 64]
  else if n < 65536 then [224 + n / 4096, 128 + n / 64 % 64, 128 + n % 64]
  else [240 + n / 262144, 128 + n / 4096 % 64, 128 + n / 64 % 64, 128 + n % 64]

/-- Uppercase hexadecimal digit for a value below 16
(as `urllib.parse.quote` produces). -/
def hexDigit (n : Nat) : Char :=
  if n < 10 then Char.ofNat (48 + n) else Char.ofNat (55 + n)

/-- Bytes `urllib.parse.quote` leaves unencoded with the default
`safe="/"`: ASCII letters, digits, `_`, `.`, `-`, `~` and `/`. -/
def isSafeByte (b : Nat) : Bool :=
  (65 ≤ b && b ≤ 90) || (97 ≤ b && b ≤ 122) || (48 ≤ b && b ≤ 57) ||
    b == 95 || b == 46 || b == 45 || b == 126 || b == 47

/-- `urllib.parse.quote` with its default `safe="/"`: UTF-8 encode the
string, keep safe bytes, render every other byte as `%XX` with
uppercase hex. -/
def quote (s : String) : String :=
  String.mk ((s.data.flatMap utf8Bytes).flatMap fun b =>
    if isSafeByte b then [Char.ofNat b]
    else ['%', hexDigit (b / 16), hexDigit (b % 16)])

/-- `build_flight_link`: the Google Flights deep link built from a
natural-language query, percent-encoded, plus currency and
traveler-count parameters. -/
def build_flight_link (departure_id dest_airport outbound_date return_date : String)
    (adults : Int) (currency : String) : String :=
  "https://www.google.com/travel/flights?q=" ++
    quote ("flights from " ++ departure_id ++ " to " ++ dest_airport ++
      " on " ++ outbound_date ++ " returning " ++ return_date) ++
    "&curr=" ++ currency ++ "&px=" ++ toString adults

/-- `flight.get("airport_code", "")` on a destination: absent flight
dictionary or absent key both yield the empty string. -/
def airport_code_of (dest : Destination) : String :=
  match dest.flight with
  | some f => f.airport_code.getD ""
  | none => ""

/-- Lines 164–167 of the source: the booking-link field of the
formatted block.  The link is built only when the airport code is
truthy (non-empty) and neither date string equals the `"N/A"` default
that `dest.get(..., "N/A")` substitutes for an absent date. -/
def dest_flight_link (dest : Destination) (departure_id : String)
    (adults : Int) (currency : String) : String :=
  if airport_code_of dest ≠ "" ∧ dest.outbound_date.getD "N/A" ≠ "N/A" ∧
      dest.return_date.getD "N/A" ≠ "N/A" then
    build_flight_link departure_id (airport_code_of dest)
      (dest.outbound_date.getD "N/A") (dest.return_date.getD "N/A") adults currency
  else ""

/-- `flight.get("price", "N/A")` rendered for display. -/
def price_str (p : Option Int) : String :=
  match p with
  | some v => toString v
  | none => "N/A"

/-- Lines 152 and 162 of the source: `stops = flight.get("stops", "N/A")`
then `"direct" if stops == 0 else f"..."`.  When the key is absent the
Python comparison `"N/A" == 0` is false, so the text is `"N/A stop(s)"`. -/
def stop_text (stops : Option Int) : String :=
  match stops with
  | some n => if n = 0 then "direct" else toString n ++ " stop(s)"
  | none => "N/A stop(s)"

/-- Lines 159–160 of the source: the accommodation cost string.  Python
tests `if avg_cost_night`, which is false for both an absent key and a
present value of `0`. -/
def cost_str (avg : Option Int) (currency : String) : String :=
  match avg with
  | some v => if v = 0 then "N/A" else toString v ++ " " ++ currency ++ "/night"
  | none => "N/A"

/-- The nested flight dictionary with `dest.get("flight", {})` applied:
an absent flight key behaves as an empty dictionary. -/
def flight_of (dest : Destination) : Flight :=
  dest.flight.getD ⟨none, none, none, none, none⟩

/-- `format_destination`: the full multi-line display block, a direct
transcription of the Python f-string template with its `get` defaults. -/
def format_destination (dest : Destination) (rank : Int)
    (currency departure_id : String) (adults : Int) : String :=
  "\n" ++ toString rank ++ ". " ++ dest.name.getD "Unknown" ++ ", " ++
    dest.country.getD "Unknown" ++
  "\n   Flight: " ++ price_str (flight_of dest).price ++ " " ++ currency ++
    " (" ++ (flight_of dest).airline_name.getD "Unknown" ++ ", " ++
    stop_text (flight_of dest).stops ++ ", " ++
    (flight_of dest).flight_duration.getD "N/A" ++ ")" ++
  "\n   Dates: " ++ dest.outbound_date.getD "N/A" ++ " -> " ++
    dest.return_date.getD "N/A" ++
  "\n   Avg accommodation: " ++ cost_str dest.avg_cost_per_night currency ++
  "\n   Book: " ++ dest_flight_link dest departure_id adults currency ++ "\n"

/-- A built booking link is never the empty string (it starts with the
base URL), so the empty link field unambiguously signals "not built". -/
theorem build_flight_link_ne_empty (d a o r : String) (ad : Int) (c : String) :
    build_flight_link d a o r ad c ≠ "" := by
  intro h
  have hd := congrArg String.length h
  simp only [build_flight_link, String.length_append] at hd
  have h0 : (0:Nat) < ("https://www.google.com/travel/flights?q=" : String).length := by
    decide
  have hz : ("" : String).length = 0 := rfl
  omega

/-- A destination whose dates are present (`outbound_date` carries the
value `"N/A"`, `return_date` a real date) and whose airport code is
present and non-empty. -/
def destNaDate : Destination :=
  ⟨some "X", none, some ⟨none, none, none, none, some "LIS"⟩,
    some "N/A", some "2025-03-08", none⟩

/-- C2 counterexample: `destNaDate` has a present non-empty airport
code and both date fields present, yet the Presenter leaves the booking
link empty, because the code tests the date strings against the `"N/A"`
default of `dest.get` and cannot distinguish a present literal `"N/A"`
value from an absent field. -/
theorem dest_flight_link_present_dates_counterexample :
    airport_code_of destNaDate = "LIS" ∧
    destNaDate.outbound_date.isSome = true ∧
    destNaDate.return_date.isSome = true ∧
    dest_flight_link destNaDate "ZRH" 1 "CHF" = "" :=
  ⟨rfl, rfl, rfl, rfl⟩

/-- C2 (amended): the booking link is non-empty exactly when the
airport code is non-empty and both date strings (after the `"N/A"`
`get` default) differ from `"N/A"`; when built, it is the flight-search
base URL with the percent-encoded natural-language query followed by
the currency and traveler-count parameters. -/
theorem dest_flight_link_spec (dest : Destination) (dep currency : String) (adults : Int) :
    (dest_flight_link dest dep adults currency ≠ "" ↔
      (airport_code_of dest ≠ "" ∧ dest.outbound_date.getD "N/A" ≠ "N/A" ∧
        dest.return_date.getD "N/A" ≠ "N/A")) ∧
    (airport_code_of dest ≠ "" → dest.outbound_date.getD "N/A" ≠ "N/A" →
      dest.return_date.getD "N/A" ≠ "N/A" →
      dest_flight_link dest dep adults currency =
        "https://www.google.com/travel/flights?q=" ++
          quote ("flights from " ++ dep ++ " to " ++ airport_code_of dest ++
            " on " ++ dest.outbound_date.getD "N/A" ++ " returning " ++
            dest.return_date.getD "N/A") ++
          "&curr=" ++ currency ++ "&px=" ++ toString adults) := by
  constructor
  · unfold dest_flight_link
    by_cases hc : airport_code_of dest ≠ "" ∧ dest.outbound_date.getD "N/A" ≠ "N/A" ∧
        dest.return_date.getD "N/A" ≠ "N/A"
    · rw [if_pos hc]
      exact ⟨fun _ => hc, fun _ => build_flight_link_ne_empty _ _ _ _ _ _⟩
    · rw [if_neg hc]
      simp [hc]
  · intro h1 h2 h3
    unfold dest_flight_link
    rw [if_pos ⟨h1, h2, h3⟩]
    rfl

/-- A destination with airport code `"LIS"` and both dates real. -/
def destGood : Destination :=
  ⟨some "Lisbon", none, some ⟨some 300, none, none, none, some "LIS"⟩,
    some "2025-03-01", some "2025-03-08", none⟩

/-- Witness for the amended C2 theorem at `destGood`: all three
conditions hold and the constructed link is the expected URL. -/
theorem dest_flight_link_spec_witness :
    dest_flight_link destGood "ZRH" 1 "CHF" =
      "https://www.google.com/travel/flights?q=flights%20from%20ZRH%20to%20LIS%20on%202025-03-01%20returning%202025-03-08&curr=CHF&px=1" :=
  ((dest_flight_link_spec destGood "ZRH" "CHF" 1).2
    (by decide) (by decide) (by decide)).trans (by decide)

/-- A destination whose flight has 2 stops (used to exercise the
`"2 stop(s)"` rendering through the full Presenter). -/
def destStops2 : Destination :=
  ⟨some "X", none, some ⟨some 100, some "TAP", some 2, some "3h", none⟩,
    none, none, none⟩

/-- C5: a present stop count of 0 renders as `"direct"` and any other
integer `n` renders as `"<n> stop(s)"`; in particular 2 renders as
`"2 stop(s)"`, also through the full formatted block. -/
theorem stop_text_spec :
    (∀ n : Int, stop_text (some n) =
      if n = 0 then "direct" else toString n ++ " stop(s)") ∧
    stop_text (some 0) = "direct" ∧
    stop_text (some 2) = "2 stop(s)" ∧
    format_destination destStops2 1 "CHF" "ZRH" 1 =
      "\n1. X, Unknown\n   Flight: 100 CHF (TAP, 2 stop(s), 3h)\n   Dates: N/A -> N/A\n   Avg accommodation: N/A\n   Book: \n" :=
  ⟨fun _ => rfl, rfl, rfl, rfl⟩

/-- C10: an average-nightly-cost field that is present but `0` renders
the accommodation string as the unavailable marker `"N/A"`, exactly as
an absent field does, because the source tests the value by Python
truthiness (`if avg_cost_night`). -/
theorem cost_str_zero :
    ∀ currency : String,
      cost_str (some 0) currency = "N/A" ∧ cost_str none currency = "N/A" :=
  fun _ => ⟨rfl, rfl⟩

/-- C8: the Presenter is total on destination records and degrades
every absent field to placeholder text: an absent name or country is
indistinguishable from the literal `"Unknown"`, an absent flight
dictionary from an empty one, an absent outbound or return date from
the `"N/A"` default, an absent airline from `"Unknown"`, an absent
duration from `"N/A"`; an absent price renders `"N/A"`, an absent stop
count `"N/A stop(s)"`, an absent nightly cost `"N/A"`, an absent
airport code an empty booking link; and the record with every field
absent still yields the complete formatted block. -/
theorem format_destination_total :
    (∀ (dest : Destination) (r : Int) (c dp : String) (a : Int), dest.name = none →
      format_destination dest r c dp a =
        format_destination {dest with name := some "Unknown"} r c dp a) ∧
    (∀ (dest : Destination) (r : Int) (c dp : String) (a : Int), dest.country = none →
      format_destination dest r c dp a =
        format_destination {dest with country := some "Unknown"} r c dp a) ∧
    (∀ (dest : Destination) (r : Int) (c dp : String) (a : Int), dest.flight = none →
      format_destination dest r c dp a =
        format_destination {dest with flight := some ⟨none, none, none, none, none⟩} r c dp a) ∧
    (∀ (dest : Destination) (r : Int) (c dp : String) (a : Int), dest.outbound_date = none →
      format_destination dest r c dp a =
        format_destination {dest with outbound_date := some "N/A"} r c dp a) ∧
    (∀ (dest : Destination) (r : Int) (c dp : String) (a : Int), dest.return_date = none →
      format_destination dest r c dp a =
        format_destination {dest with return_date := some "N/A"} r c dp a) ∧
    (∀ (dest : Destination) (r : Int) (c dp : String) (a : Int),
        (flight_of dest).airline_name = none →
      format_destination dest r c dp a =
        format_destination
          {dest with flight := some {flight_of dest with airline_name := some "Unknown"}}
          r c dp a) ∧
    (∀ (dest : Destination) (r : Int) (c dp : String) (a : Int),
        (flight_of dest).flight_duration = none →
      format_destination dest r c dp a =
        format_destination
          {dest with flight := some {flight_of dest with flight_duration := some "N/A"}}
          r c dp a) ∧
    price_str none = "N/A" ∧
    stop_text none = "N/A stop(s)" ∧
    (∀ c : String, cost_str none c = "N/A") ∧
    (∀ (dest : Destination) (dp : String) (a : Int) (c : String),
        (flight_of dest).airport_code = none → dest_flight_link dest dp a c = "") ∧
    format_destination ⟨none, none, none, none, none, none⟩ 1 "CHF" "ZRH" 1 =
      "\n1. Unknown, Unknown\n   Flight: N/A CHF (Unknown, N/A stop(s), N/A)\n   Dates: N/A -> N/A\n   Avg accommodation: N/A\n   Book: \n" := by
  refine ⟨?_, ?_, ?_, ?_, ?_, ?_, ?_, rfl, rfl, fun _ => rfl, ?_, rfl⟩
  · intro dest r c dp a h
    simp [format_destination, dest_flight_link, airport_code_of, flight_of, h]
  · intro dest r c dp a h
    simp [format_destination, dest_flight_link, airport_code_of, flight_of, h]
  · intro dest r c dp a h
    simp [format_destination, dest_flight_link, airport_code_of, flight_of, h]
  · intro dest r c dp a h
    simp [format_destination, dest_flight_link, airport_code_of, flight_of, h]
  · intro dest r c dp a h
    simp [format_destination, dest_flight_link, airport_code_of, flight_of, h]
  · intro dest r c dp a h
    rcases hf : dest.flight with _ | f
    · simp [format_destination, dest_flight_link, airport_code_of, flight_of, hf]
    · simp only [flight_of, hf, Option.getD_some] at h
      simp [format_destination, dest_flight_link, airport_code_of, flight_of, hf, h]
  · intro dest r c dp a h
    rcases hf : dest.flight with _ | f
    · simp [format_destination, dest_flight_link, airport_code_of, flight_of, hf]
    · simp only [flight_of, hf, Option.getD_some] at h
      simp [format_destination, dest_flight_link, airport_code_of, flight_of, hf, h]
  · intro dest dp a c h
    simp [dest_flight_link, airport_code_of, flight_of] at h ⊢
    intro hcode
    rcases hf : dest.flight with _ | f
    · simp [hf] at hcode
    · simp [hf] at h hcode
      simp [h] at hcode

/-- Witness for the C8 theorem: the absent-name conjunct applied to the
fully-absent record. -/
theorem format_destination_total_witness :
    format_destination ⟨none, none, none, none, none, none⟩ 2 "EUR" "ZRH" 1 =
      format_destination ⟨some "Unknown", none, none, none, none, none⟩ 2 "EUR" "ZRH" 1 :=
  format_destination_total.1 ⟨none, none, none, none, none, none⟩ 2 "EUR" "ZRH" 1 rfl

/-! ### Fetcher and orchestrator -/

/-- The immutable inputs to one fetch call (the keyword arguments of
`get_travel_destinations`, which `main` fills from `argparse`). -/
structure SearchRequest where
  departure_id : String
  adults : Int
  time_period : String
  interests : String
  currency : String
  gl : String
  hl : String
  max_price : Option Int
  travel_class : String
  stops : String
deriving Repr, DecidableEq

/-- A query-parameter value: the source passes both strings and
integers to `requests.get`. -/
inductive ParamVal where
  | int (i : Int)
  | str (s : String)
deriving Repr, DecidableEq

/-- The `params` dictionary of `get_travel_destinations`: ten fixed
entries, plus `max_price` appended only when it is not `None`. -/
def build_params (req : SearchRequest) : List (String × ParamVal) :=
  [("engine", .str "google_travel_explore"),
   ("departure_id", .str req.departure_id),
   ("adults", .int req.adults),
   ("time_period", .str req.time_period),
   ("interests", .str req.interests),
   ("currency", .str req.currency),
   ("gl", .str req.gl),
   ("hl", .str req.hl),
   ("travel_class", .str req.travel_class),
   ("stops", .str req.stops)] ++
  (match req.max_price with
   | some m => [("max_price", ParamVal.int m)]
   | none => [])

/-- The one outbound HTTP GET: URL, query parameters and the bearer
token of the `Authorization` header.  Producing such a value is the
only way the model can reach the network. -/
structure HttpRequest where
  url : String
  params : List (String × ParamVal)
  bearer : String
deriving Repr, DecidableEq

/-- The error taxonomy of the source: `ValueError` for a missing
credential, `requests.exceptions.HTTPError` carrying the status code
after `raise_for_status`, and other `RequestException` transport
failures. -/
inductive FetchError where
  | configError (msg : String)
  | apiError (status : Nat)
  | networkError (msg : String)
deriving Repr, DecidableEq

/-- The message of the `ValueError` raised for a missing credential. -/
def config_msg : String :=
  "SEARCHAPI_API_KEY environment variable is not set. Please set it with: export SEARCHAPI_API_KEY=\x27your_api_key\x27"

/-- `get_travel_destinations` up to the point of the network call:
reads the credential from the environment (`none` = unset variable) and
either raises the configuration error — the Python test `if not api_key` is
true for both an unset and an empty variable — or describes the single
HTTP GET it would issue. -/
def get_travel_destinations (apiKey : Option String) (req : SearchRequest) :
    Except FetchError HttpRequest :=
  match apiKey with
  | none => .error (.configError config_msg)
  | some k =>
    if k = "" then .error (.configError config_msg)
    else .ok ⟨"https://www.searchapi.io/api/v1/search", build_params req, k⟩

/-- The decoded `"destinations"` entry of the response body (absent
key modelled as `none`; `response.get("destinations", [])`). -/
structure ApiResponse where
  destinations : Option (List Destination)
deriving Repr, DecidableEq

/-- What the external network does with the one request: a transport
failure or an HTTP response with a status code and decoded body. -/
inductive NetOutcome where
  | transport (msg : String)
  | response (status : Nat) (body : ApiResponse)

/-- The fetch with the network plugged in: config check, then
`requests.get`, then `raise_for_status` (4xx/5xx become `HTTPError`). -/
def run_fetch (apiKey : Option String) (req : SearchRequest)
    (net : HttpRequest → NetOutcome) : Except FetchError ApiResponse :=
  match get_travel_destinations apiKey req with
  | .error e => .error e
  | .ok httpReq =>
    match net httpReq with
    | .transport msg => .error (.networkError msg)
    | .response status body =>
      if 400 ≤ status then .error (.apiError status) else .ok body

/-- Everything `main` prints before entering the `try` block. -/
def preamble (req : SearchRequest) : List String :=
  ["🌍 Fetching travel destinations from " ++ req.departure_id ++ "...",
   "   Interests: " ++ req.interests ++ " | Period: " ++ req.time_period,
   "   Class: " ++ req.travel_class ++ " | Stops: " ++ req.stops,
   ""]

/-- The default of the `--limit` option. -/
def default_limit : Int := 20

/-- The Python slice `l[:stop]` for an arbitrary (possibly negative) integer
`stop`: a negative bound counts from the end of the list. -/
def python_slice (stop : Int) (l : List α) : List α :=
  if 0 ≤ stop then l.take stop.toNat
  else l.take (l.length - min l.length (-stop).toNat)

/-- The observable outcome of one `main` invocation: exit status, lines
printed to stdout and stderr, the formatted destination blocks, and
whether the Ranker/Presenter stage was reached. -/
structure MainResult where
  exitCode : Nat
  stdout : List String
  stderr : List String
  displayed : List String
  rankerInvoked : Bool
deriving Repr, DecidableEq

/-- The separator line `"=" * 60`. -/
def separator : String := String.mk (List.replicate 60 '=')

/-- `main` after argument parsing, with the environment and the network
as explicit inputs: fetch, handle the three error classes (printing the
diagnostics of lines 275–287), print the no-results notice on an empty
list, otherwise rank, truncate to the display limit and print each
formatted block with its 1-based rank. -/
def main_run (apiKey : Option String) (req : SearchRequest)
    (net : HttpRequest → NetOutcome) (limit : Int) : MainResult :=
  match run_fetch apiKey req net with
  | .error (.configError msg) =>
    ⟨1, preamble req, ["❌ Configuration error: " ++ msg], [], false⟩
  | .error (.apiError status) =>
    ⟨1, preamble req,
      ["❌ API error: HTTP " ++ toString status] ++
        (if status = 401 then ["   Check your SEARCHAPI_API_KEY is valid"]
         else if status = 429 then ["   Rate limit exceeded. Please wait and try again."]
         else []),
      [], false⟩
  | .error (.networkError msg) =>
    ⟨1, preamble req, ["❌ Network error: " ++ msg], [], false⟩
  | .ok resp =>
    let destinations := resp.destinations.getD []
    if destinations = [] then
      ⟨0, preamble req ++ ["No destinations found. Try different search parameters."],
        [], [], false⟩
    else
      let sorted_destinations := sort_by_cheapest destinations
      let display := python_slice limit sorted_destinations
      let blocks := display.enum.map fun p =>
        format_destination p.2 (Int.ofNat p.1 + 1) req.currency req.departure_id req.adults
      ⟨0,
        preamble req ++
          ["📋 Found " ++ toString destinations.length ++ " destinations. Showing top " ++
            toString display.length ++ " by cheapest price:", separator] ++
          blocks ++ [separator, "", "💡 Tip: Use --help to see all available options"],
        [], blocks, true⟩

/-- The `SearchRequest` built from the defaults of `argparse` and of
the keyword arguments of `get_travel_destinations`. -/
def req_default : SearchRequest :=
  ⟨"ZRH", 1, "one_week_trip_in_the_next_six_months", "popular", "CHF", "CH",
    "en-US", none, "economy", "any"⟩

/-- C3: with the credential environment variable unset (`none`) or
empty, the Fetcher raises the configuration error and never produces an
HTTP request, and `main` prints the configuration-error diagnostic to
stderr and exits with status 1 — for every behaviour `net` of the
network, which is never consulted. -/
theorem missing_credential_config_error (apiKey : Option String)
    (req : SearchRequest) (net : HttpRequest → NetOutcome) (limit : Int)
    (h : apiKey = none ∨ apiKey = some "") :
    get_travel_destinations apiKey req = .error (.configError config_msg) ∧
    main_run apiKey req net limit =
      ⟨1, preamble req, ["❌ Configuration error: " ++ config_msg], [], false⟩ := by
  rcases h with h | h <;> subst h <;> exact ⟨rfl, rfl⟩

/-- Witness for C3 at an unset variable: the fetch fails with the
configuration error and `main` reports it with exit status 1, with a
network that would answer if it were ever reached. -/
theorem missing_credential_config_error_witness :
    get_travel_destinations none req_default = .error (.configError config_msg) ∧
    main_run none req_default (fun _ => .response 200 ⟨some [destA]⟩) 20 =
      ⟨1, preamble req_default, ["❌ Configuration error: " ++ config_msg], [], false⟩ :=
  missing_credential_config_error none req_default
    (fun _ => .response 200 ⟨some [destA]⟩) 20 (Or.inl rfl)

/-- C9: with a truthy credential the Fetcher issues exactly one GET to
the search endpoint whose parameters are `build_params req`; those
parameters contain `max_price` exactly when the optional field is
present, and always contain every other request field. -/
theorem fetch_params_spec (req : SearchRequest) :
    (∀ k : String, k ≠ "" →
      get_travel_destinations (some k) req =
        .ok ⟨"https://www.searchapi.io/api/v1/search", build_params req, k⟩) ∧
    (("max_price" ∈ (build_params req).map Prod.fst) ↔ req.max_price.isSome = true) ∧
    ("engine" ∈ (build_params req).map Prod.fst ∧
     "departure_id" ∈ (build_params req).map Prod.fst ∧
     "adults" ∈ (build_params req).map Prod.fst ∧
     "time_period" ∈ (build_params req).map Prod.fst ∧
     "interests" ∈ (build_params req).map Prod.fst ∧
     "currency" ∈ (build_params req).map Prod.fst ∧
     "gl" ∈ (build_params req).map Prod.fst ∧
     "hl" ∈ (build_params req).map Prod.fst ∧
     "travel_class" ∈ (build_params req).map Prod.fst ∧
     "stops" ∈ (build_params req).map Prod.fst) := by
  refine ⟨?_, ?_, ?_⟩
  · intro k hk
    simp [get_travel_destinations, hk]
  · rcases h : req.max_price with _ | m <;> simp [build_params, h]
  · rcases h : req.max_price with _ | m <;> simp [build_params, h]

/-- Witness for C9: with the key `"key"` and the default request the
Fetcher produces the GET with `build_params req_default`. -/
theorem fetch_params_spec_witness :
    get_travel_destinations (some "key") req_default =
      .ok ⟨"https://www.searchapi.io/api/v1/search", build_params req_default, "key"⟩ :=
  (fetch_params_spec req_default).1 "key" (by decide)

/-- C7: when the destination list of the fetched response is empty or
absent, `main` prints the no-results notice, exits with status 0, and
never reaches the Ranker/Presenter stage (no block is formatted). -/
theorem empty_destinations_no_results (key : String) (hk : key ≠ "")
    (req : SearchRequest) (limit : Int) (d : Option (List Destination))
    (hd : d.getD [] = []) :
    main_run (some key) req (fun _ => .response 200 ⟨d⟩) limit =
      ⟨0, preamble req ++ ["No destinations found. Try different search parameters."],
        [], [], false⟩ := by
  simp [main_run, run_fetch, get_travel_destinations, hk, hd]

/-- Witness for C7: an explicitly empty destination list yields the
no-results outcome with exit status 0. -/
theorem empty_destinations_no_results_witness :
    main_run (some "key") req_default (fun _ => .response 200 ⟨some []⟩) 20 =
      ⟨0, preamble req_default ++
        ["No destinations found. Try different search parameters."], [], [], false⟩ :=
  empty_destinations_no_results "key" (by decide) req_default 20 (some []) rfl

/-- C4 counterexample: at display limit `-1` with one fetched
destination, `main` prints 0 formatted blocks, whereas `min L n` is
`min (-1) 1 = -1`; a negative limit is interpreted by Python slicing as
counting from the end of the list, not clamped by `min`. -/
theorem display_limit_counterexample :
    (main_run (some "key") req_default
      (fun _ => .response 200 ⟨some [destA]⟩) (-1)).displayed.length = 0 ∧
    min (-1 : Int) 1 = -1 ∧ (0 : Int) ≠ -1 := by
  refine ⟨rfl, by decide, by decide⟩

/-- C4 (amended): for every nonnegative display limit `L` and nonempty
fetched list of length `n`, `main` prints exactly `min L n` formatted
blocks, and the limit defaults to 20; a negative `L` instead drops
`-L` records from the end (Python slice semantics). -/
theorem display_limit_truncates (req : SearchRequest) (key : String)
    (limit : Int) (dests : List Destination)
    (hk : key ≠ "") (hl : 0 ≤ limit) (hd : dests ≠ []) :
    (main_run (some key) req (fun _ => .response 200 ⟨some dests⟩) limit).displayed.length =
      min limit.toNat dests.length ∧ default_limit = 20 := by
  refine ⟨?_, rfl⟩
  have hlen := (List.perm_insertionSort destLe dests).length_eq
  simp [main_run, run_fetch, get_travel_destinations, hk, hd, python_slice, if_pos hl,
    List.length_take, sort_by_cheapest, hlen]

/-- Witness for the amended C4 theorem: limit 3 over two destinations
displays `min 3 2 = 2` blocks. -/
theorem display_limit_truncates_witness :
    (main_run (some "key") req_default
      (fun _ => .response 200 ⟨some [destA, destB]⟩) 3).displayed.length =
      min (Int.toNat 3) [destA, destB].length ∧ default_limit = 20 :=
  display_limit_truncates req_default "key" 3 [destA, destB]
    (by decide) (by decide) (by decide)

end TravelExplore
